import Mathlib

/-!
Shallow embedding of `src/app/main.py` (Solana Risk Checker backend).

Python floats are modelled as exact rationals (`ℚ`), Python ints as `Int`/`Nat`,
JSON-optional fields as `Option`, and the in-memory `CACHE` dict as a function
`String → Option CacheEntry`.  The upstream Helius HTTP GET and the RPC
simulation call are external effects; each handler takes their outcome as an
explicit argument (`Option (List TxRecord)` for the GET, where `none` models
any transport error / non-2xx status / malformed body caught by the
`try/except`, and `SimOutcome` for the simulation).  `time.time()` readings are
passed in as an explicit `now : ℚ`.
-/

namespace RiskChecker

/-- A `nativeTransfers` sub-record of a Helius transaction
(fields accessed via `t.get(...)`, hence optional). -/
structure NativeTransfer where
  fromUserAccount : Option String
  toUserAccount : Option String
  amount : Option Nat
deriving Repr, DecidableEq

/-- A transaction record of the Helius history response
(`tx.get("nativeTransfers", [])` and `tx.get("timestamp")`). -/
structure TxRecord where
  nativeTransfers : List NativeTransfer
  timestamp : Option Int
deriving Repr, DecidableEq

/-- The feature dict returned by `extract_features_from_helius`. -/
structure FeatureSet where
  tx_count : Nat
  incoming_tx_count : Nat
  outgoing_tx_count : Nat
  incoming_ratio : ℚ
  recent_activity_days : Option ℚ
deriving Repr, DecidableEq

/-- Python `t.get(key) == address`: a missing key yields `None`, and
`None == address` is `False` for a string `address`. -/
def optEqAddr (o : Option String) (address : String) : Bool :=
  match o with
  | some s => s == address
  | none => false

/-- One iteration of the inner loop of `extract_features_from_helius`:
`if t.get("toUserAccount") == address: incoming += 1
 elif t.get("fromUserAccount") == address: outgoing += 1`. -/
def stepTransfer (address : String) (acc : Nat × Nat) (t : NativeTransfer) : Nat × Nat :=
  if optEqAddr t.toUserAccount address then (acc.1 + 1, acc.2)
  else if optEqAddr t.fromUserAccount address then (acc.1, acc.2 + 1)
  else acc

/-- The timestamp update of the outer loop:
`ts = tx.get("timestamp"); if ts and (last_tx_timestamp is None or ts > last_tx_timestamp): ...`.
Python truthiness: `ts` is falsy when it is `None` or `0`. -/
def updateLast (last : Option Int) (ts : Option Int) : Option Int :=
  match ts with
  | none => last
  | some v =>
    if v = 0 then last
    else
      match last with
      | none => some v
      | some l => if v > l then some v else last

/-- One iteration of the outer loop of `extract_features_from_helius` over a
transaction record: accumulator is `(incoming, outgoing, last_tx_timestamp)`. -/
def extractStep (address : String) (acc : Nat × Nat × Option Int) (tx : TxRecord) :
    Nat × Nat × Option Int :=
  let io := tx.nativeTransfers.foldl (stepTransfer address) (acc.1, acc.2.1)
  (io.1, io.2, updateLast acc.2.2 tx.timestamp)

/-- `extract_features_from_helius(data, address)` from `src/app/main.py`.
The Python body reads `time.time()` for `recent_activity_days`; that clock
reading is the explicit argument `now`.  Note the truthiness guards:
`incoming_ratio = incoming / tx_count if tx_count > 0 else 0` and
`recent_days = (time.time() - last_tx_timestamp) / 86400 if last_tx_timestamp else None`. -/
def extract_features_from_helius (data : List TxRecord) (address : String) (now : ℚ) :
    FeatureSet :=
  let acc := data.foldl (extractStep address) (0, 0, none)
  { tx_count := data.length
    incoming_tx_count := acc.1
    outgoing_tx_count := acc.2.1
    incoming_ratio := if data.length > 0 then (acc.1 : ℚ) / (data.length : ℚ) else 0
    recent_activity_days :=
      match acc.2.2 with
      | none => none
      | some l => if l = 0 then none else some ((now - (l : ℚ)) / 86400) }

/-- A `CACHE` entry: `{"timestamp": time.time(), "data": data}`. -/
structure CacheEntry where
  timestamp : ℚ
  data : List TxRecord
deriving Repr, DecidableEq

/-- The module-level `CACHE` dict, keyed by address. -/
def CacheMap : Type := String → Option CacheEntry

/-- The empty initial cache (`CACHE = {}`). -/
def emptyCache : CacheMap := fun _ => none

/-- The cache read at the top of `get_transactions`:
`if address in CACHE and time.time() - CACHE[address]["timestamp"] < CACHE_TTL:
    return CACHE[address]["data"]`. -/
def cacheGet (cache : CacheMap) (address : String) (now ttl : ℚ) :
    Option (List TxRecord) :=
  match cache address with
  | some entry => if now - entry.timestamp < ttl then some entry.data else none
  | none => none

/-- Result of one `get_transactions` call: the returned data, the cache after
the call, and whether an upstream GET was issued. -/
structure FetchResult where
  result : List TxRecord
  cache : CacheMap
  upstreamCalled : Bool

/-- `get_transactions(address)` from `src/app/main.py`.  `upstream` is the
outcome of the (external) Helius GET: `none` models any exception caught by
the `try/except` (transport error, `raise_for_status` on non-2xx, or a
`.json()` parse failure), in which case the function returns `[]` and the
cache is untouched; `some d` models a successful parse, which is cached
unconditionally (`CACHE[address] = {"timestamp": time.time(), "data": data}`)
and returned.  On a fresh cache hit the upstream is never consulted. -/
def get_transactions (cache : CacheMap) (address : String) (now ttl : ℚ)
    (upstream : Option (List TxRecord)) : FetchResult :=
  match cacheGet cache address now ttl with
  | some d => ⟨d, cache, false⟩
  | none =>
    match upstream with
    | none => ⟨[], cache, true⟩
    | some d => ⟨d, fun a => if a = address then some ⟨now, d⟩ else cache a, true⟩

/-- The risk score of the `/score` handler:
`score = min(1.0, 0.1 + 0.8 * features["incoming_ratio"])`. -/
def riskScore (features : FeatureSet) : ℚ :=
  min 1 (1/10 + 4/5 * features.incoming_ratio)

/-- The label of the `/score` handler:
`label = "high" if score > 0.65 else "medium" if score > 0.35 else "low"`. -/
def riskLabel (s : ℚ) : String :=
  if s > 65/100 then "high" else if s > 35/100 then "medium" else "low"

/-- Round half to even (Python 3 `round` on exact halves). -/
def roundHalfEven (q : ℚ) : ℤ :=
  if q - ⌊q⌋ < 1/2 then ⌊q⌋
  else if q - ⌊q⌋ > 1/2 then ⌊q⌋ + 1
  else if ⌊q⌋ % 2 = 0 then ⌊q⌋ else ⌊q⌋ + 1

/-- `round(score, 2)`: round to 2 decimal places. -/
def round2 (q : ℚ) : ℚ := (roundHalfEven (q * 100) : ℚ) / 100

/-- JSON body of a `/score` response: either `{"error": ...}` or
`{"score": ..., "label": ..., "features": ...}`. -/
inductive ScoreBodyOut where
  | error (msg : String)
  | result (score : ℚ) (label : String) (features : FeatureSet)
deriving Repr, DecidableEq

/-- An HTTP response of the `/score` endpoint (FastAPI returns plain dicts,
so the status is always 200). -/
structure ScoreHttpResponse where
  status : Nat
  body : ScoreBodyOut
deriving Repr, DecidableEq

/-- The parsed request body of `/score` (`body.get("address")`). -/
structure ScoreRequestBody where
  address : Option String

/-- The success payload built in Step 4 of the `/score` handler:
`{"score": round(score, 2), "label": label, "features": features}`. -/
def score_response (features : FeatureSet) : ScoreBodyOut :=
  .result (round2 (riskScore features)) (riskLabel (riskScore features)) features

/-- The `/score` handler from `src/app/main.py`.  Python's `if not address`
treats a missing key and an empty string alike; `if not tx_data` treats the
empty list returned by a failed (or genuinely empty, cached-empty) fetch as
failure.  Returns the HTTP response together with the cache after the call. -/
def scoreHandler (body : ScoreRequestBody) (cache : CacheMap) (now ttl : ℚ)
    (upstream : Option (List TxRecord)) : ScoreHttpResponse × CacheMap :=
  match body.address with
  | none => (⟨200, .error "Missing \x27address\x27 field in request."⟩, cache)
  | some address =>
    if address = "" then
      (⟨200, .error "Missing \x27address\x27 field in request."⟩, cache)
    else
      let fr := get_transactions cache address now ttl upstream
      if fr.result = [] then
        (⟨200, .error "Failed to fetch transaction data from Helius."⟩, fr.cache)
      else
        let features := extract_features_from_helius fr.result address now
        (⟨200, score_response features⟩, fr.cache)

/-- The `resp.value` of a successful `simulate_transaction` RPC. -/
structure SimValue where
  logs : List String
  units_consumed : Option Nat
  err : Option String
deriving Repr, DecidableEq

/-- Outcome of the external work inside the `/simulate` `try` block:
`failure msg` models any exception (base64 decode failure or RPC failure)
caught by the `except`, `success v` a completed RPC with `resp.value = v`
(`none` when `resp.value` is `None`). -/
inductive SimOutcome where
  | failure (msg : String)
  | success (value : Option SimValue)

/-- JSON body of a `/simulate` response. -/
inductive SimBodyOut where
  | error (msg : String)
  | okBody (logs : List String) (units_consumed : Option Nat) (err : Option String)
deriving Repr, DecidableEq

/-- An HTTP response of the `/simulate` endpoint (always status 200). -/
structure SimHttpResponse where
  status : Nat
  body : SimBodyOut
deriving Repr, DecidableEq

/-- The parsed request body of `/simulate` (`body.get("tx")`). -/
structure SimRequestBody where
  tx : Option String

/-- The `/simulate` handler from `src/app/main.py`.  `sim` maps the encoded
transaction string to the outcome of the base64 decode + RPC call; any
exception is caught and surfaced as `{"error": str(e)}`.  On success the
response mirrors `resp.value.logs if resp.value else []` etc. -/
def simulateHandler (body : SimRequestBody) (sim : String → SimOutcome) :
    SimHttpResponse :=
  match body.tx with
  | none => ⟨200, .error "Missing \x27tx\x27 field — expected base64-encoded transaction"⟩
  | some tx =>
    if tx = "" then
      ⟨200, .error "Missing \x27tx\x27 field — expected base64-encoded transaction"⟩
    else
      match sim tx with
      | .failure m => ⟨200, .error m⟩
      | .success value =>
        ⟨200, .okBody
          (match value with | some v => v.logs | none => [])
          (value.bind (fun v => v.units_consumed))
          (value.bind (fun v => v.err))⟩

/-- The `/health` handler: `return {"ok": True}`. -/
def healthHandler : Bool := true

/-- Predicate on a native transfer matched by the `incoming` branch
(`t.get("toUserAccount") == address`). -/
def isIncoming (address : String) (t : NativeTransfer) : Bool :=
  optEqAddr t.toUserAccount address

/-- Predicate on a native transfer matched by the `outgoing` branch: the
`elif` fires only when the receiver check failed. -/
def isOutgoing (address : String) (t : NativeTransfer) : Bool :=
  !optEqAddr t.toUserAccount address && optEqAddr t.fromUserAccount address

/-- Merge of two optional maxima, used to state the loop characterisation. -/
def oMax (a b : Option Int) : Option Int :=
  match a, b with
  | none, b => b
  | some x, none => some x
  | some x, some y => some (max x y)

/-- A timestamp as seen through Python truthiness: `None` and `0` count as
no timestamp. -/
def truthyTs (ts : Option Int) : Option Int :=
  match ts with
  | none => none
  | some v => if v = 0 then none else some v

/-- Modelled from the spec: "Track the maximum timestamp seen across all
records (timestamps absent/null are ignored)", amended for the code's
truthiness test that also ignores a timestamp equal to 0.  A clean recursive
maximum of the truthy timestamps, used to characterise the loop. -/
def specMaxTimestamp : List TxRecord → Option Int
  | [] => none
  | tx :: rest => oMax (truthyTs tx.timestamp) (specMaxTimestamp rest)

/-- A record with two native transfers both naming "A" as receiver. -/
def multiIncomingData : List TxRecord :=
  [⟨[⟨some "X", some "A", none⟩, ⟨some "Y", some "A", none⟩], none⟩]

/-- The spec's scenario: one incoming and one outgoing transfer for "A". -/
def scenarioData : List TxRecord :=
  [⟨[⟨some "X", some "A", none⟩], none⟩, ⟨[⟨some "A", some "Y", none⟩], none⟩]

/-- A single record whose timestamp is exactly 0. -/
def zeroTsData : List TxRecord := [⟨[], some 0⟩]

/-- A single record with timestamp 1 (for clock-dependence). -/
def tsOneData : List TxRecord := [⟨[], some 1⟩]

/-- A FeatureSet with incoming ratio 1/2, as produced by the scenario. -/
def fsHalf : FeatureSet := ⟨2, 1, 1, 1/2, none⟩

/-- A nonempty fetch payload used as a concrete upstream success. -/
def oneRecord : List TxRecord := [⟨[], none⟩]

/-- A cache holding an entry for "A" written at time 0. -/
def cacheWithA : CacheMap := fun a => if a = "A" then some ⟨0, oneRecord⟩ else none

/-! ### Loop characterisations and arithmetic helper lemmas -/

theorem stepTransfer_foldl (address : String) (l : List NativeTransfer) (i o : Nat) :
    l.foldl (stepTransfer address) (i, o) =
      (i + l.countP (isIncoming address), o + l.countP (isOutgoing address)) := by
  induction l generalizing i o with
  | nil => simp
  | cons t l ih =>
    simp only [List.foldl_cons, List.countP_cons]
    by_cases h1 : optEqAddr t.toUserAccount address <;>
      by_cases h2 : optEqAddr t.fromUserAccount address <;>
        simp [stepTransfer, isIncoming, isOutgoing, h1, h2, ih, Prod.ext_iff] <;> omega

theorem oMax_assoc (a b c : Option Int) : oMax (oMax a b) c = oMax a (oMax b c) := by
  cases a <;> cases b <;> cases c <;> simp [oMax, max_assoc]

theorem updateLast_eq_oMax (acc : Option Int) (ts : Option Int) :
    updateLast acc ts = oMax acc (truthyTs ts) := by
  cases ts with
  | none => cases acc <;> simp [updateLast, truthyTs, oMax]
  | some v =>
    by_cases hv : v = 0
    · cases acc <;> simp [updateLast, truthyTs, oMax, hv]
    · cases acc with
      | none => simp [updateLast, truthyTs, oMax, hv]
      | some l =>
        simp only [updateLast, truthyTs, if_neg hv, oMax, Option.some.injEq]
        by_cases hvl : l < v
        · simp [hvl, max_eq_right (le_of_lt hvl)]
        · simp [hvl, max_eq_left (not_lt.mp hvl)]

theorem updateLast_foldl (data : List TxRecord) (acc : Option Int) :
    data.foldl (fun last tx => updateLast last tx.timestamp) acc =
      oMax acc (specMaxTimestamp data) := by
  induction data generalizing acc with
  | nil => cases acc <;> simp [specMaxTimestamp, oMax]
  | cons tx rest ih =>
    rw [List.foldl_cons, ih, updateLast_eq_oMax]
    simp only [specMaxTimestamp]
    exact oMax_assoc acc (truthyTs tx.timestamp) (specMaxTimestamp rest)

theorem truthyTs_ne_zero (ts : Option Int) (v : Int) (h : truthyTs ts = some v) :
    v ≠ 0 := by
  cases ts with
  | none => simp [truthyTs] at h
  | some w =>
    by_cases hw : w = 0
    · simp [truthyTs, hw] at h
    · simp [truthyTs, hw] at h
      omega

theorem specMaxTimestamp_ne_zero (data : List TxRecord) (m : Int)
    (h : specMaxTimestamp data = some m) : m ≠ 0 := by
  induction data generalizing m with
  | nil => simp [specMaxTimestamp] at h
  | cons tx rest ih =>
    simp only [specMaxTimestamp] at h
    cases ht : truthyTs tx.timestamp with
    | none =>
      rw [ht] at h
      simp only [oMax] at h
      exact ih m h
    | some v =>
      rw [ht] at h
      cases hr : specMaxTimestamp rest with
      | none =>
        rw [hr] at h
        simp only [oMax, Option.some.injEq] at h
        exact h ▸ truthyTs_ne_zero tx.timestamp v ht
      | some m' =>
        rw [hr] at h
        simp only [oMax, Option.some.injEq] at h
        rcases max_choice v m' with h' | h' <;> rw [← h, h']
        · exact truthyTs_ne_zero tx.timestamp v ht
        · exact ih m' hr

theorem extractStep_foldl (address : String) (data : List TxRecord)
    (acc : Nat × Nat × Option Int) :
    data.foldl (extractStep address) acc =
      (acc.1 + (data.map fun tx => tx.nativeTransfers.countP (isIncoming address)).sum,
       acc.2.1 + (data.map fun tx => tx.nativeTransfers.countP (isOutgoing address)).sum,
       data.foldl (fun last tx => updateLast last tx.timestamp) acc.2.2) := by
  induction data generalizing acc with
  | nil => simp
  | cons tx rest ih =>
    simp only [List.foldl_cons, List.map_cons, List.sum_cons, extractStep,
      stepTransfer_foldl, ih]
    refine Prod.ext ?_ (Prod.ext ?_ rfl) <;> simp <;> omega

theorem extract_incoming (data : List TxRecord) (address : String) (now : ℚ) :
    (extract_features_from_helius data address now).incoming_tx_count =
      (data.map fun tx => tx.nativeTransfers.countP (isIncoming address)).sum := by
  simp [extract_features_from_helius, extractStep_foldl]

theorem extract_outgoing (data : List TxRecord) (address : String) (now : ℚ) :
    (extract_features_from_helius data address now).outgoing_tx_count =
      (data.map fun tx => tx.nativeTransfers.countP (isOutgoing address)).sum := by
  simp [extract_features_from_helius, extractStep_foldl]

theorem extract_recent (data : List TxRecord) (address : String) (now : ℚ) :
    (extract_features_from_helius data address now).recent_activity_days =
      (specMaxTimestamp data).map (fun l => (now - (l : ℚ)) / 86400) := by
  simp only [extract_features_from_helius, extractStep_foldl, updateLast_foldl]
  cases h : specMaxTimestamp data with
  | none => simp [oMax]
  | some m =>
    have hm := specMaxTimestamp_ne_zero data m h
    simp [oMax, hm]

theorem roundHalfEven_abs (q : ℚ) : |q - (roundHalfEven q : ℚ)| ≤ 1/2 := by
  have h1 : ((⌊q⌋ : ℤ) : ℚ) ≤ q := Int.floor_le q
  have h2 : q < (⌊q⌋ : ℤ) + 1 := Int.lt_floor_add_one q
  unfold roundHalfEven
  split_ifs with ha hb hc <;> (rw [abs_le]; push_cast at *; constructor <;> linarith)

theorem round2_abs (q : ℚ) : |q - round2 q| ≤ 1/200 := by
  have h := roundHalfEven_abs (q * 100)
  unfold round2
  rw [abs_le] at h ⊢
  obtain ⟨hl, hr⟩ := h
  constructor <;> linarith

theorem riskLabel_high_iff (s : ℚ) : riskLabel s = "high" ↔ 65/100 < s := by
  unfold riskLabel
  split_ifs with h1 h2
  · simp [h1]
  · exact iff_of_false (by decide) h1
  · exact iff_of_false (by decide) h1

theorem riskLabel_medium_iff (s : ℚ) :
    riskLabel s = "medium" ↔ (35/100 < s ∧ s ≤ 65/100) := by
  unfold riskLabel
  split_ifs with h1 h2
  · exact iff_of_false (by decide) (fun hc => absurd h1 (not_lt.mpr hc.2))
  · exact iff_of_true rfl ⟨h2, not_lt.mp h1⟩
  · exact iff_of_false (by decide) (fun hc => absurd hc.1 h2)

theorem riskLabel_low_iff (s : ℚ) : riskLabel s = "low" ↔ s ≤ 35/100 := by
  unfold riskLabel
  split_ifs with h1 h2
  · exact iff_of_false (by decide) (fun hc => absurd h1 (not_lt.mpr (le_trans hc (by norm_num))))
  · exact iff_of_false (by decide) (fun hc => absurd h2 (not_lt.mpr hc))
  · exact iff_of_true rfl (not_lt.mp h2)

theorem extract_ratio (data : List TxRecord) (address : String) (now : ℚ) :
    (extract_features_from_helius data address now).incoming_ratio =
      if 0 < data.length then
        (((data.map fun tx => tx.nativeTransfers.countP (isIncoming address)).sum : ℕ) :
          ℚ) / ((data.length : ℕ) : ℚ)
      else 0 := by
  simp [extract_features_from_helius, extractStep_foldl]

/-! ### Claims -/

/-- C1, counterexample: the claim "incoming_ratio lies in [0,1], including
when a single record contains multiple native-transfer entries naming that
address" is false on the code.  With one record holding two native transfers
to "A", `incoming = 2` but `tx_count = len(data) = 1`, so
`incoming_ratio = 2 > 1`. -/
theorem C1_counterexample :
    ¬ ((extract_features_from_helius multiIncomingData "A" 0).incoming_ratio ≤ 1) := by
  norm_num [extract_features_from_helius, extractStep, stepTransfer, optEqAddr,
    multiIncomingData]

/-- C1, amended: `incoming_ratio` is always defined and nonnegative, and it
lies in [0,1] provided every record contains at most one native-transfer
entry whose receiver equals the address; a record with several such entries
can push the ratio above 1 (the counterexample). -/
theorem C1_ratio_bounds (data : List TxRecord) (address : String) (now : ℚ)
    (h : ∀ tx ∈ data, tx.nativeTransfers.countP (isIncoming address) ≤ 1) :
    0 ≤ (extract_features_from_helius data address now).incoming_ratio ∧
      (extract_features_from_helius data address now).incoming_ratio ≤ 1 := by
  have hsum : (data.map fun tx => tx.nativeTransfers.countP (isIncoming address)).sum ≤
      data.length := by
    have hb : ∀ x ∈ data.map fun tx => tx.nativeTransfers.countP (isIncoming address),
        x ≤ 1 := by
      intro x hx
      obtain ⟨tx, htx, rfl⟩ := List.mem_map.mp hx
      exact h tx htx
    have := List.sum_le_card_nsmul _ 1 hb
    simpa using this
  rw [extract_ratio]
  split_ifs with hlen
  · have hlen' : (0 : ℚ) < (data.length : ℚ) := by exact_mod_cast hlen
    constructor
    · exact div_nonneg (Nat.cast_nonneg _) (Nat.cast_nonneg _)
    · rw [div_le_one hlen']
      exact_mod_cast hsum
  · exact ⟨le_refl 0, by norm_num⟩

/-- C1 witness: the amended bound applied to the concrete two-record
scenario, where each record has at most one incoming transfer. -/
theorem C1_ratio_bounds_witness :
    0 ≤ (extract_features_from_helius scenarioData "A" 0).incoming_ratio ∧
      (extract_features_from_helius scenarioData "A" 0).incoming_ratio ≤ 1 :=
  C1_ratio_bounds scenarioData "A" 0 (by decide)

/-- C2: for every FeatureSet with incoming_ratio in [0,1], the scorer yields
`score = min(1.0, 0.1 + 0.8 r)` (which never clamps, since `0.1 + 0.8 r ≤ 0.9`);
the label is "high" iff score > 0.65, "medium" iff 0.35 < score ≤ 0.65, and
"low" iff score ≤ 0.35; and the response carries `round(score, 2)`, a value
within 1/200 of the score. -/
theorem C2_scorer (fs : FeatureSet) (_h0 : 0 ≤ fs.incoming_ratio)
    (h1 : fs.incoming_ratio ≤ 1) :
    riskScore fs = min 1 (1/10 + 4/5 * fs.incoming_ratio) ∧
      riskScore fs = 1/10 + 4/5 * fs.incoming_ratio ∧
      (riskLabel (riskScore fs) = "high" ↔ 65/100 < riskScore fs) ∧
      (riskLabel (riskScore fs) = "medium" ↔
        (35/100 < riskScore fs ∧ riskScore fs ≤ 65/100)) ∧
      (riskLabel (riskScore fs) = "low" ↔ riskScore fs ≤ 35/100) ∧
      score_response fs =
        .result (round2 (riskScore fs)) (riskLabel (riskScore fs)) fs ∧
      |riskScore fs - round2 (riskScore fs)| ≤ 1/200 := by
  have hmin : riskScore fs = 1/10 + 4/5 * fs.incoming_ratio := by
    unfold riskScore
    exact min_eq_right (by linarith)
  exact ⟨rfl, hmin, riskLabel_high_iff _, riskLabel_medium_iff _, riskLabel_low_iff _,
    rfl, round2_abs _⟩

/-- C2 witness: the scorer contract applied to the FeatureSet with ratio 1/2. -/
theorem C2_scorer_witness :
    riskScore fsHalf = min 1 (1/10 + 4/5 * fsHalf.incoming_ratio) ∧
      riskScore fsHalf = 1/10 + 4/5 * fsHalf.incoming_ratio ∧
      (riskLabel (riskScore fsHalf) = "high" ↔ 65/100 < riskScore fsHalf) ∧
      (riskLabel (riskScore fsHalf) = "medium" ↔
        (35/100 < riskScore fsHalf ∧ riskScore fsHalf ≤ 65/100)) ∧
      (riskLabel (riskScore fsHalf) = "low" ↔ riskScore fsHalf ≤ 35/100) ∧
      score_response fsHalf =
        .result (round2 (riskScore fsHalf)) (riskLabel (riskScore fsHalf)) fsHalf ∧
      |riskScore fsHalf - round2 (riskScore fsHalf)| ≤ 1/200 :=
  C2_scorer fsHalf (by norm_num [fsHalf]) (by norm_num [fsHalf])

/-- C3, counterexample: the claim "at most one upstream GET regardless of the
outcome of the first fetch" is false.  With an empty cache and a failing
upstream, the failure is not cached, so a second call 1 second later (well
within TTL 300) issues a second upstream GET. -/
theorem C3_counterexample :
    (1 : ℚ) - 0 < 300 ∧
      (get_transactions emptyCache "A" 0 300 none).upstreamCalled = true ∧
      (get_transactions (get_transactions emptyCache "A" 0 300 none).cache
        "A" 1 300 none).upstreamCalled = true :=
  ⟨by norm_num, rfl, rfl⟩

/-- C3, amended: two score-fetches within TTL seconds issue at most one
upstream GET, provided the first call did not end in a failed upstream fetch
(a cache hit or a successful fetch both qualify); in that case the second
call is served from the cache.  A failed first fetch is not cached and the
second call retries upstream (the counterexample). -/
theorem C3_cache_hit (cache : CacheMap) (address : String) (t₁ t₂ ttl : ℚ)
    (u₁ u₂ : Option (List TxRecord))
    (hwin : t₂ - t₁ < ttl)
    (hok : (get_transactions cache address t₁ ttl u₁).upstreamCalled = true →
      u₁.isSome) :
    ((if (get_transactions cache address t₁ ttl u₁).upstreamCalled then 1 else 0) +
      (if (get_transactions (get_transactions cache address t₁ ttl u₁).cache
        address t₂ ttl u₂).upstreamCalled then 1 else 0) ≤ 1) ∧
    ((get_transactions cache address t₁ ttl u₁).upstreamCalled = true →
      (get_transactions (get_transactions cache address t₁ ttl u₁).cache
        address t₂ ttl u₂).result = u₁.getD [] ∧
      (get_transactions (get_transactions cache address t₁ ttl u₁).cache
        address t₂ ttl u₂).upstreamCalled = false) := by
  cases hcg : cacheGet cache address t₁ ttl with
  | some d =>
    have h1 : get_transactions cache address t₁ ttl u₁ = ⟨d, cache, false⟩ := by
      simp [get_transactions, hcg]
    rw [h1]
    refine ⟨?_, ?_⟩
    · split_ifs <;> simp_all
    · intro hcontra
      simp at hcontra
  | none =>
    have hcall : (get_transactions cache address t₁ ttl u₁).upstreamCalled = true := by
      cases u₁ <;> simp [get_transactions, hcg]
    have hsome := hok hcall
    obtain ⟨d, rfl⟩ : ∃ d, u₁ = some d := by
      cases u₁
      · simp at hsome
      · exact ⟨_, rfl⟩
    have h1 : get_transactions cache address t₁ ttl (some d) =
        ⟨d, fun a => if a = address then some ⟨t₁, d⟩ else cache a, true⟩ := by
      simp [get_transactions, hcg]
    rw [h1]
    have h2 : cacheGet (fun a => if a = address then some ⟨t₁, d⟩ else cache a)
        address t₂ ttl = some d := by
      simp [cacheGet, hwin]
    have h3 : get_transactions (fun a => if a = address then some ⟨t₁, d⟩ else cache a)
        address t₂ ttl u₂ = ⟨d, fun a => if a = address then some ⟨t₁, d⟩ else cache a,
          false⟩ := by
      simp [get_transactions, h2]
    rw [h3]
    exact ⟨by norm_num, fun _ => ⟨rfl, rfl⟩⟩

/-- C3 witness: first call misses an empty cache and succeeds upstream; the
second call 1 second later is a cache hit, so exactly one upstream GET. -/
theorem C3_cache_hit_witness :
    ((if (get_transactions emptyCache "A" 0 300 (some oneRecord)).upstreamCalled
        then 1 else 0) +
      (if (get_transactions (get_transactions emptyCache "A" 0 300
        (some oneRecord)).cache "A" 1 300 none).upstreamCalled then 1 else 0) ≤ 1) ∧
    ((get_transactions emptyCache "A" 0 300 (some oneRecord)).upstreamCalled = true →
      (get_transactions (get_transactions emptyCache "A" 0 300
        (some oneRecord)).cache "A" 1 300 none).result = (some oneRecord).getD [] ∧
      (get_transactions (get_transactions emptyCache "A" 0 300
        (some oneRecord)).cache "A" 1 300 none).upstreamCalled = false) :=
  C3_cache_hit emptyCache "A" 0 1 300 (some oneRecord) none (by norm_num)
    (fun _ => rfl)

/-- C4: on a cache miss, a failed upstream GET (transport error, non-2xx, or
malformed body, all collapsed into the caught exception) returns the empty
sequence and leaves the cache unchanged; a successful GET returns the parsed
array unchanged and unconditionally writes it (even an empty array, since `d`
is universally quantified) into the cache under the address with the current
timestamp, touching no other key. -/
theorem C4_fetch (cache : CacheMap) (address : String) (now ttl : ℚ)
    (d : List TxRecord)
    (h : cacheGet cache address now ttl = none) :
    ((get_transactions cache address now ttl none).result = [] ∧
      (get_transactions cache address now ttl none).cache = cache ∧
      (get_transactions cache address now ttl none).upstreamCalled = true) ∧
    ((get_transactions cache address now ttl (some d)).result = d ∧
      (get_transactions cache address now ttl (some d)).cache address =
        some ⟨now, d⟩ ∧
      (∀ a, a ≠ address →
        (get_transactions cache address now ttl (some d)).cache a = cache a) ∧
      (get_transactions cache address now ttl (some d)).upstreamCalled = true) := by
  refine ⟨⟨?_, ?_, ?_⟩, ?_, ?_, ?_, ?_⟩ <;> simp [get_transactions, h]
  intro a ha
  simp [ha]

/-- C4 witness: the miss/failure and miss/success behaviour at an empty
cache, including the untouched foreign key "B". -/
theorem C4_fetch_witness :
    (get_transactions emptyCache "A" 0 300 none).result = [] ∧
      (get_transactions emptyCache "A" 0 300 none).cache = emptyCache ∧
      (get_transactions emptyCache "A" 0 300 (some [])).result = [] ∧
      (get_transactions emptyCache "A" 0 300 (some [])).cache "A" = some ⟨0, []⟩ ∧
      (get_transactions emptyCache "A" 0 300 (some [])).cache "B" = none := by
  refine ⟨(C4_fetch emptyCache "A" 0 300 [] rfl).1.1,
    (C4_fetch emptyCache "A" 0 300 [] rfl).1.2.1,
    (C4_fetch emptyCache "A" 0 300 [] rfl).2.1,
    (C4_fetch emptyCache "A" 0 300 [] rfl).2.2.1, ?_⟩
  have := (C4_fetch emptyCache "A" 0 300 [] rfl).2.2.2.1 "B" (by decide)
  simpa [emptyCache] using this

/-- C5: the extractor increments `incoming` exactly for native-transfer
entries whose receiver equals the address, and `outgoing` exactly for entries
whose receiver does not match and whose sender does (the `elif` gives the
receiver check precedence, so the branches are mutually exclusive); and on
the spec's two-record scenario it yields incoming = 1, outgoing = 1,
tx_count = 2, incoming_ratio = 1/2, hence score 1/2 and label "medium". -/
theorem C5_branch_precedence :
    (∀ (data : List TxRecord) (address : String) (now : ℚ),
      (extract_features_from_helius data address now).incoming_tx_count =
        (data.map fun tx => tx.nativeTransfers.countP (isIncoming address)).sum ∧
      (extract_features_from_helius data address now).outgoing_tx_count =
        (data.map fun tx => tx.nativeTransfers.countP (isOutgoing address)).sum) ∧
    ∀ now : ℚ,
      (extract_features_from_helius scenarioData "A" now).incoming_tx_count = 1 ∧
      (extract_features_from_helius scenarioData "A" now).outgoing_tx_count = 1 ∧
      (extract_features_from_helius scenarioData "A" now).tx_count = 2 ∧
      (extract_features_from_helius scenarioData "A" now).incoming_ratio = 1/2 ∧
      riskScore (extract_features_from_helius scenarioData "A" now) = 1/2 ∧
      riskLabel (riskScore (extract_features_from_helius scenarioData "A" now)) =
        "medium" := by
  refine ⟨fun data address now => ⟨extract_incoming data address now,
    extract_outgoing data address now⟩, fun now => ?_⟩
  have hratio : (extract_features_from_helius scenarioData "A" now).incoming_ratio =
      1/2 := by
    have hs : (scenarioData.map fun tx =>
        tx.nativeTransfers.countP (isIncoming "A")).sum = 1 := by decide
    have hl : scenarioData.length = 2 := rfl
    rw [extract_ratio, hs, hl]
    norm_num
  have hscore : riskScore (extract_features_from_helius scenarioData "A" now) = 1/2 := by
    rw [riskScore, hratio]
    norm_num
  refine ⟨?_, ?_, rfl, hratio, hscore, ?_⟩
  · rw [extract_incoming]
    decide
  · rw [extract_outgoing]
    decide
  · rw [hscore]
    norm_num [riskLabel]

/-- C6, counterexample: the claim "recent_activity_days is defined including
when a timestamp equals 0" is false.  Python's `if ts and ...` skips a zero
timestamp, so a single record with timestamp 0 yields
`recent_activity_days = None` instead of `(now - 0)/86400`. -/
theorem C6_counterexample :
    (extract_features_from_helius zeroTsData "A" 86400).recent_activity_days = none ∧
      (none : Option ℚ) ≠ some ((86400 - 0) / 86400) := by
  constructor
  · simp [extract_features_from_helius, extractStep, zeroTsData, updateLast]
  · simp

/-- C6, amended: `recent_activity_days = (now - m)/86400` where `m` is the
maximum of the timestamps that are present AND nonzero, and it is absent
exactly when no record carries a nonzero timestamp (a timestamp equal to 0
is treated like an absent one, contrary to the original claim); in
particular for tx_count = 0 (i.e. no records at all) the FeatureSet has
incoming_ratio = 0 and recent_activity_days absent. -/
theorem C6_recent_days (data : List TxRecord) (address : String) (now : ℚ) :
    ((extract_features_from_helius data address now).recent_activity_days =
      (specMaxTimestamp data).map (fun l => (now - (l : ℚ)) / 86400)) ∧
    ((extract_features_from_helius data address now).recent_activity_days = none ↔
      specMaxTimestamp data = none) ∧
    (extract_features_from_helius [] address now).incoming_ratio = 0 ∧
    (extract_features_from_helius [] address now).recent_activity_days = none := by
  refine ⟨extract_recent data address now, ?_, by simp [extract_features_from_helius],
    by simp [extract_features_from_helius]⟩
  rw [extract_recent]
  cases specMaxTimestamp data <;> simp

/-- C7: a cache entry older than TTL is treated as a miss, so the fetch
issues an upstream GET whatever the upstream outcome; the stale entry is not
deleted — after a failed refetch the cache is entirely unchanged and still
holds the stale entry, while a successful refetch overwrites it. -/
theorem C7_stale_entry (cache : CacheMap) (address : String) (now ttl : ℚ)
    (entry : CacheEntry) (u : Option (List TxRecord)) (d : List TxRecord)
    (hin : cache address = some entry)
    (hstale : ¬ (now - entry.timestamp < ttl)) :
    (get_transactions cache address now ttl u).upstreamCalled = true ∧
      (get_transactions cache address now ttl none).cache = cache ∧
      (get_transactions cache address now ttl none).cache address = some entry ∧
      (get_transactions cache address now ttl (some d)).cache address =
        some ⟨now, d⟩ := by
  have hmiss : cacheGet cache address now ttl = none := by
    simp [cacheGet, hin, hstale]
  refine ⟨?_, ?_, ?_, ?_⟩
  · cases u <;> simp [get_transactions, hmiss]
  · simp [get_transactions, hmiss]
  · simp [get_transactions, hmiss, hin]
  · simp [get_transactions, hmiss]

/-- C7 witness: an entry for "A" cached at time 0 read at time 300 with
TTL 300 is stale; the refetch happens and a failed one leaves it intact. -/
theorem C7_stale_entry_witness :
    (get_transactions cacheWithA "A" 300 300 none).upstreamCalled = true ∧
      (get_transactions cacheWithA "A" 300 300 none).cache = cacheWithA ∧
      (get_transactions cacheWithA "A" 300 300 none).cache "A" =
        some ⟨0, oneRecord⟩ ∧
      (get_transactions cacheWithA "A" 300 300 (some [])).cache "A" =
        some ⟨300, []⟩ :=
  C7_stale_entry cacheWithA "A" 300 300 ⟨0, oneRecord⟩ none [] rfl (by norm_num)

/-- C8: within the model (a dict-shaped request body; the upstream GET, the
base64 decode and the RPC call represented by their outcomes) both handlers
are total functions that always answer HTTP 200: every failure — missing
required field, failed fetch, decode or RPC exception — becomes a JSON body
with an "error" string.  In particular POST /score with body `{}` returns
exactly `{"error": "Missing 'address' field in request."}` with status 200,
and /simulate with an undecodable tx surfaces the caught exception text. -/
theorem C8_always_200 :
    (∀ (body : ScoreRequestBody) (cache : CacheMap) (now ttl : ℚ)
        (upstream : Option (List TxRecord)),
      (scoreHandler body cache now ttl upstream).1.status = 200) ∧
    (∀ (body : SimRequestBody) (sim : String → SimOutcome),
      (simulateHandler body sim).status = 200) ∧
    (∀ (cache : CacheMap) (now ttl : ℚ) (upstream : Option (List TxRecord)),
      scoreHandler ⟨none⟩ cache now ttl upstream =
        (⟨200, .error "Missing \x27address\x27 field in request."⟩, cache)) ∧
    (∀ (now ttl : ℚ),
      scoreHandler ⟨some "A"⟩ emptyCache now ttl none =
        (⟨200, .error "Failed to fetch transaction data from Helius."⟩,
          emptyCache)) ∧
    (∀ m : String,
      simulateHandler ⟨some "not-base64!!"⟩ (fun _ => .failure m) =
        ⟨200, .error m⟩) := by
  refine ⟨?_, ?_, fun _ _ _ _ => rfl, fun _ _ => rfl, fun _ => rfl⟩
  · rintro ⟨_ | a⟩ cache now ttl upstream
    · rfl
    · simp only [scoreHandler]
      split_ifs <;> rfl
  · rintro ⟨_ | t⟩ sim
    · rfl
    · simp only [simulateHandler]
      split_ifs with h
      · rfl
      · cases sim t <;> rfl

/-- C9, counterexample: the claim "no dependence on when they are executed"
is false — `extract_features_from_helius` reads `time.time()` for
`recent_activity_days`, so the same (records, address) pair produces
different FeatureSets at clock readings 1 and 86401. -/
theorem C9_counterexample :
    extract_features_from_helius tsOneData "A" 1 ≠
      extract_features_from_helius tsOneData "A" 86401 := by
  simp [extract_features_from_helius, extractStep, tsOneData, updateLast,
    FeatureSet.mk.injEq]
  norm_num

/-- C9, amended: the extractor is pure and deterministic as a function of
(records, address, clock reading); every field except `recent_activity_days`
is independent of the clock, and whether `recent_activity_days` is absent is
also clock-independent. -/
theorem C9_deterministic (data : List TxRecord) (address : String) (n₁ n₂ : ℚ) :
    (extract_features_from_helius data address n₁).tx_count =
      (extract_features_from_helius data address n₂).tx_count ∧
    (extract_features_from_helius data address n₁).incoming_tx_count =
      (extract_features_from_helius data address n₂).incoming_tx_count ∧
    (extract_features_from_helius data address n₁).outgoing_tx_count =
      (extract_features_from_helius data address n₂).outgoing_tx_count ∧
    (extract_features_from_helius data address n₁).incoming_ratio =
      (extract_features_from_helius data address n₂).incoming_ratio ∧
    ((extract_features_from_helius data address n₁).recent_activity_days = none ↔
      (extract_features_from_helius data address n₂).recent_activity_days = none) := by
  refine ⟨rfl, rfl, rfl, rfl, ?_⟩
  rw [extract_recent, extract_recent]
  cases specMaxTimestamp data <;> simp

/-- C10: a present-but-empty required field is indistinguishable from an
absent one, because `if not address` / `if not encoded_tx` test truthiness:
POST /score with address = "" and POST /simulate with tx = "" return the
same missing-field error objects (status 200) as the absent-field requests. -/
theorem C10_empty_string_as_missing :
    (∀ (cache : CacheMap) (now ttl : ℚ) (upstream : Option (List TxRecord)),
      scoreHandler ⟨some ""⟩ cache now ttl upstream =
        scoreHandler ⟨none⟩ cache now ttl upstream ∧
      scoreHandler ⟨some ""⟩ cache now ttl upstream =
        (⟨200, .error "Missing \x27address\x27 field in request."⟩, cache)) ∧
    ∀ sim : String → SimOutcome,
      simulateHandler ⟨some ""⟩ sim = simulateHandler ⟨none⟩ sim ∧
      simulateHandler ⟨some ""⟩ sim =
        ⟨200, .error "Missing \x27tx\x27 field — expected base64-encoded transaction"⟩ :=
  ⟨fun _ _ _ _ => ⟨rfl, rfl⟩, fun _ => ⟨rfl, rfl⟩⟩

end RiskChecker
